import Mathlib

/-!
Verification of the `rpgprotocolexample` sample data file (`gamedata.py`)
against its natural-language specification.

The file under verification is declarative game content: named constants
(experience tables, dice ranges), a stat dependency graph, a skill, entities
and a two-room map.  The mechanics it relies on (the `Stat.full_value`
resolution, `set_base_value`, stat creation with cycle detection, and level
resolution) live in the external `rpgprotocol` library, which is not part of
this repository, so those operations are modelled from the specification and
marked as such in their doc comments.  Everything that is literally present in
`gamedata.py` (the tables, the dice ranges, the source wiring of the stats,
the expressions of the construction section) is embedded directly from the
source, including the failing expressions of lines 102-119, which are
evaluated as the Python semantics evaluates them.
-/

namespace RpgExample

/-! ## Named constants (gamedata.py lines 20-36) -/

/-- `EXPERIENCE_CURVE = [0, 500, 1500, 3000, 5000, 6500, 9500, 13000, 17000, 20500]`
(gamedata.py line 20). -/
def EXPERIENCE_CURVE : List Int :=
  [0, 500, 1500, 3000, 5000, 6500, 9500, 13000, 17000, 20500]

/-- `PERK_POINTS = [5, 3, 5, 3, 3, 5, 3, 3, 5, 15]` (gamedata.py line 21). -/
def PERK_POINTS : List Int := [5, 3, 5, 3, 3, 5, 3, 3, 5, 15]

/-- `PERK_CREDITS = [3, 1, 2, 3, 4, 5, 5, 5, 7, 9]` (gamedata.py line 22). -/
def PERK_CREDITS : List Int := [3, 1, 2, 3, 4, 5, 5, 5, 7, 9]

/-- `BASE_STAT_MINIMUM = 5` (gamedata.py line 23). -/
def BASE_STAT_MINIMUM : Int := 5

/-- Python `range(a, b)` as the list of integers `a, a+1, ..., b-1`
(the upper bound is excluded, as in Python). -/
def pyRange (a b : Nat) : List Nat := List.range' a (b - a)

/-- `D100 = range(1, 100)` (gamedata.py line 29). -/
def D100 : List Nat := pyRange 1 100

/-- `D20 = range(1, 20)` (gamedata.py line 30). -/
def D20 : List Nat := pyRange 1 20

/-- `D12 = range(1, 12)` (gamedata.py line 31). -/
def D12 : List Nat := pyRange 1 12

/-- `D10 = range(1, 10)` (gamedata.py line 32). -/
def D10 : List Nat := pyRange 1 10

/-- `D8 = range(1, 8)` (gamedata.py line 33). -/
def D8 : List Nat := pyRange 1 8

/-- `D6 = range(1, 6)` (gamedata.py line 34). -/
def D6 : List Nat := pyRange 1 6

/-- `D4 = range(1, 4)` (gamedata.py line 35). -/
def D4 : List Nat := pyRange 1 4

/-- `COIN = range(1, 2)` (gamedata.py line 36). -/
def COIN : List Nat := pyRange 1 2

/-! ## The melee skill (gamedata.py lines 78-79) -/

/-- The fields of a `Skill` that the invariants talk about: the three parallel
leveling sequences and the involved stat names
(`Skill(experience_curve=..., perk_points=..., perk_credits=..., name=...,
involved_stats=...)`, gamedata.py line 79). -/
structure Skill where
  experience_curve : List Int
  perk_points : List Int
  perk_credits : List Int
  name : String
  involved_stats : List String

/-- `melee = Skill(experience_curve=EXPERIENCE_CURVE, perk_points=PERK_POINTS,
perk_credits=PERK_CREDITS, name=melee, involved_stats={attack, maxhp, dodge,
curhp})` (gamedata.py line 79). -/
def melee : Skill :=
  { experience_curve := EXPERIENCE_CURVE
    perk_points := PERK_POINTS
    perk_credits := PERK_CREDITS
    name := "melee"
    involved_stats := ["attack", "maxhp", "dodge", "curhp"] }

/-! ## Level resolution -/

/-- Modelled from the spec: level resolution lives in the external
`rpgprotocol` library, not in this repository.  The spec says the entity
resolves to "the highest threshold less than or equal to the accumulated
experience"; this walks the threshold table, counts the thresholds that are
at most the accumulated experience, and returns the index of the last such
threshold.  It is a pure function of the threshold table and the experience
value. -/
def resolveLevel (curve : List Int) (accumulated : Int) : Nat :=
  (curve.filter (fun t => t ≤ accumulated)).length - 1

/-! ## The stat graph

Modelled from the spec: the `Stat` class itself (with `full_value`,
`set_base_value` and the creation operations) lives in the external
`rpgprotocol` library, which is not part of this repository.  The definitions
below follow the words of the specification (StatGraph, section 4.1): a stat
holds a stored numeric value, an optional single `source` reference, a
derivation function applied to the source value, and an ordered sequence of
modifiers applied in insertion order.  The registry is an insertion-ordered
association list keyed by name. -/

/-- Modelled from the spec: the data of one registered stat.  `value` is the
stored value (authoritative for base stats), `source` the optional single
source stat name (`derived_from` in gamedata.py), `fn` the derivation
function applied to the source value of a derived stat, and `mods` the
ordered sequence of modifiers, applied in insertion order. -/
structure StatDef where
  value : Int
  source : Option String
  fn : Int → Int
  mods : List (Int → Int)

/-- The stat registry: an insertion-ordered association list of named stats. -/
abbrev Env := List (String × StatDef)

/-- Look a stat up by name (first matching entry). -/
def lookupStat : Env → String → Option StatDef
  | [], _ => none
  | (n, d) :: rest, name => if n = name then some d else lookupStat rest name

/-- Apply an ordered sequence of modifiers in insertion order: later modifiers
are applied to the result of earlier ones. -/
def applyMods (mods : List (Int → Int)) (v : Int) : Int :=
  mods.foldl (fun acc m => m acc) v

/-- Modelled from the spec: `full_value(name)`.  For a base stat, the stored
value with its modifiers applied; for a derived stat, recursively the full
value of the source passed through the derivation function, with the own
modifiers of the stat applied on top.  `none` models `UnknownStatError` for an absent
name; the fuel argument bounds the recursion depth (exhausted fuel, which an
acyclic registry never hits at fuel `env.length`, also yields `none`). -/
def full_value (env : Env) : Nat → String → Option Int
  | 0, _ => none
  | fuel + 1, name =>
    match lookupStat env name with
    | none => none
    | some d =>
      match d.source with
      | none => some (applyMods d.mods d.value)
      | some s => (full_value env fuel s).map (fun v => applyMods d.mods (d.fn v))

/-- The source chain of a stat: the list of registry entries starting at the
stat itself and following `source` references down to the base stat (which
comes last).  `none` if a name is unregistered or the fuel runs out before a
base stat is reached. -/
def chainTo (env : Env) : Nat → String → Option (List (String × StatDef))
  | 0, _ => none
  | fuel + 1, name =>
    match lookupStat env name with
    | none => none
    | some d =>
      match d.source with
      | none => some [(name, d)]
      | some s => (chainTo env fuel s).map (fun c => (name, d) :: c)

/-- The names along a source chain, outermost stat first, base stat last. -/
def chainNames (env : Env) (fuel : Nat) (name : String) : Option (List String) :=
  (chainTo env fuel name).map (fun c => c.map Prod.fst)

/-- The value described by the spec sentence: start from the stored value of
the base stat (with the modifiers of the base stat applied) and move outward along
the chain, at each derived stat applying its derivation function and then its
own modifiers in insertion order.  The chain is given outermost stat first,
as produced by `chainTo`. -/
def chainEval : List (String × StatDef) → Int
  | [] => 0
  | (_, d) :: rest =>
    match d.source with
    | none => applyMods d.mods d.value
    | some _ => applyMods d.mods (d.fn (chainEval rest))

/-- A registry is well formed (acyclic and closed) when the source chain of
every registered stat reaches a base stat within `env.length` steps: with
out-degree at most one this is exactly acyclicity plus every referenced
source being registered. -/
def WellFormed (env : Env) : Prop :=
  env.all (fun p => (chainTo env (List.length env) p.1).isSome) = true

/-- Replace the stored value of the first entry with the given name. -/
def updateVal : Env → String → Int → Env
  | [], _, _ => []
  | (n, d) :: rest, name, v =>
    if n = name then (n, { d with value := v }) :: rest
    else (n, d) :: updateVal rest name v

/-- Modelled from the spec: `set_base_value(name, value)` updates the stored
value of a base stat and nothing else; it fails (`none`) if the name is
unregistered or names a derived stat. -/
def set_base_value (env : Env) (name : String) (v : Int) : Option Env :=
  match lookupStat env name with
  | none => none
  | some d =>
    match d.source with
    | none => some (updateVal env name v)
    | some _ => none

/-- Modelled from the spec: the error kinds of the stat creation operations. -/
inductive StatError
  | duplicateName
  | unknownStat
  | cycle
deriving DecidableEq, Repr

/-- Walking the source chain: does the chain starting at `cur` reach the name
`target` within `fuel` steps? -/
def reaches (env : Env) : Nat → String → String → Bool
  | 0, _, _ => false
  | fuel + 1, cur, target =>
    if cur = target then true
    else
      match lookupStat env cur with
      | none => false
      | some d =>
        match d.source with
        | none => false
        | some s => reaches env fuel s target

/-- Modelled from the spec: `create_base_stat(name, initial_value)` registers
a new stat with no source; it fails with `DuplicateNameError` if the name is
already registered. -/
def create_base_stat (env : Env) (name : String) (v : Int) :
    Except StatError Env :=
  if (lookupStat env name).isSome then .error .duplicateName
  else .ok (env ++ [(name, ⟨v, none, id, []⟩)])

/-- Modelled from the spec: `create_derived_stat(name, source_name,
modifier_fn)` registers a stat derived from `source_name`.  It fails with
`UnknownStatError` if `source_name` is not registered, and with `CycleError`
if adding the edge would create a cycle, checked by walking the source chain
from `source_name` back toward `name` and rejecting if `name` is reached. -/
def create_derived_stat (env : Env) (name source_name : String)
    (fn : Int → Int) : Except StatError Env :=
  match lookupStat env source_name with
  | none => .error .unknownStat
  | some _ =>
    if reaches env (List.length env + 1) source_name name then .error .cycle
    else .ok (env ++ [(name, ⟨0, some source_name, fn, []⟩)])

/-! ## The sample stat graph (gamedata.py lines 45-64)

The stored values and the source wiring below are exactly those of the
declarations `strength` .. `curhp` in gamedata.py.  The sample passes no
derivation function or modifiers when instantiating its stats (the library
default transform is not shown in this repository), so `fn` is the identity
and `mods` is empty; no theorem below depends on that choice, since the
claims about the sample concern only its source-chain structure. -/

/-- The eight stats of gamedata.py lines 45-64, in declaration order:
four base stats with value `BASE_STAT_MINIMUM`, then
`attack = Stat(value=0, derived_from=dexterity)`,
`maxhp = Stat(value=0, derived_from=stamina)`,
`dodge = Stat(value=0, derived_from=agility)`,
`curhp = Stat(value=0, derived_from=maxhp)`. -/
def sampleEnv : Env :=
  [ ("strength", ⟨BASE_STAT_MINIMUM, none, id, []⟩)
  , ("dexterity", ⟨BASE_STAT_MINIMUM, none, id, []⟩)
  , ("stamina", ⟨BASE_STAT_MINIMUM, none, id, []⟩)
  , ("agility", ⟨BASE_STAT_MINIMUM, none, id, []⟩)
  , ("attack", ⟨0, some "dexterity", id, []⟩)
  , ("maxhp", ⟨0, some "stamina", id, []⟩)
  , ("dodge", ⟨0, some "agility", id, []⟩)
  , ("curhp", ⟨0, some "maxhp", id, []⟩) ]

/-- The source edges of a registry: one pair `(stat, source)` for every
derived stat. -/
def sourceEdges (env : Env) : List (String × String) :=
  env.filterMap (fun p => p.2.source.map (fun s => (p.1, s)))

/-- The out-degree of a stat in the source graph: how many source references
leave it. -/
def outDegree (env : Env) (name : String) : Nat :=
  ((sourceEdges env).filter (fun e => e.1 = name)).length

/-- Acyclicity at one registry entry: either the entry is a base stat, or
walking the source chain from its source never reaches the entry itself. -/
def acyclicAt (env : Env) (p : String × StatDef) : Bool :=
  match p.2.source with
  | none => true
  | some s => !(reaches env (List.length env) s p.1)

/-- Rewrite one chain entry: if it carries the updated name, replace its
stored value, otherwise leave it alone. -/
def updEntry (b : String) (v : Int) (p : String × StatDef) : String × StatDef :=
  if p.1 = b then (p.1, { p.2 with value := v }) else p

/-! ## General lemmas about the stat graph -/

/-- A successful lookup comes from a registry entry. -/
theorem lookupStat_mem (env : Env) (name : String) (d : StatDef)
    (h : lookupStat env name = some d) : (name, d) ∈ env := by
  induction env with
  | nil => simp [lookupStat] at h
  | cons p rest ih =>
    obtain ⟨n, d0⟩ := p
    simp only [lookupStat] at h
    split at h
    · next hn =>
      injection h with h
      subst hn; subst h
      exact List.Mem.head _
    · next hn => exact List.Mem.tail _ (ih h)

/-- The recursive `full_value` computes exactly the chain evaluation of the
source chain: it equals `chainEval` of whatever chain `chainTo` finds. -/
theorem full_value_eq_chain (env : Env) :
    ∀ (fuel : Nat) (name : String),
      full_value env fuel name = (chainTo env fuel name).map chainEval := by
  intro fuel
  induction fuel with
  | zero => intro name; rfl
  | succ k ih =>
    intro name
    cases hl : lookupStat env name with
    | none => simp [full_value, chainTo, hl]
    | some d =>
      cases hs : d.source with
      | none => simp [full_value, chainTo, hl, hs, chainEval]
      | some s =>
        simp only [full_value, chainTo, hl, hs]
        rw [ih s]
        cases hc : chainTo env k s <;> simp [chainEval, hs]

/-- Looking up after `updateVal`: the updated name yields the old definition
with its stored value replaced; every other name is untouched. -/
theorem lookupStat_updateVal (env : Env) (b x : String) (v : Int) :
    lookupStat (updateVal env b v) x =
      if x = b then (lookupStat env b).map (fun d => { d with value := v })
      else lookupStat env x := by
  induction env with
  | nil => by_cases hx : x = b <;> simp [updateVal, lookupStat, hx]
  | cons p rest ih =>
    obtain ⟨n, d⟩ := p
    by_cases hn : n = b
    · subst hn
      by_cases hx : x = n
      · simp [updateVal, lookupStat, hx]
      · have hnx : ¬ n = x := fun h => hx h.symm
        simp [updateVal, lookupStat, hx, hnx]
    · by_cases hx : x = b
      · subst hx
        have hnx : ¬ n = x := hn
        simp [updateVal, lookupStat, hn, hnx, ih]
      · by_cases hnx : n = x <;> simp [updateVal, lookupStat, hn, hx, hnx, ih]

/-- `updateVal` only changes stored values, so the source chain of every stat
is preserved entry-wise, with the updated name carrying the new value. -/
theorem chainTo_updateVal (env : Env) (b : String) (v : Int) :
    ∀ (fuel : Nat) (x : String),
      chainTo (updateVal env b v) fuel x =
        (chainTo env fuel x).map (List.map (updEntry b v)) := by
  intro fuel
  induction fuel with
  | zero => intro x; rfl
  | succ k ih =>
    intro x
    by_cases hx : x = b
    · cases hl : lookupStat env b with
      | none => simp [chainTo, lookupStat_updateVal, hx, hl]
      | some d =>
        cases hs : d.source with
        | none => simp [chainTo, lookupStat_updateVal, hx, hl, hs, updEntry]
        | some s =>
          simp only [chainTo, lookupStat_updateVal, hx, if_pos, hl,
            Option.map_some', hs]
          rw [ih s]
          cases hc : chainTo env k s <;> simp [updEntry, hs]
    · cases hl : lookupStat env x with
      | none => simp [chainTo, lookupStat_updateVal, hx, hl]
      | some d =>
        cases hs : d.source with
        | none => simp [chainTo, lookupStat_updateVal, hx, hl, hs, updEntry]
        | some s =>
          simp only [chainTo, lookupStat_updateVal, if_neg hx, hl, hs]
          rw [ih s]
          cases hc : chainTo env k s <;> simp [updEntry, hx]

/-- A successful `set_base_value` call produces exactly the registry with the
stored value of the named entry replaced. -/
theorem set_base_value_some (env : Env) (b : String) (v : Int) (env2 : Env)
    (h : set_base_value env b v = some env2) : env2 = updateVal env b v := by
  unfold set_base_value at h
  split at h
  · exact Option.noConfusion h
  · split at h
    · injection h with h
      exact h.symm
    · exact Option.noConfusion h

/-! ## The spec example scenario (stamina, maxhp, curhp) -/

/-- Modelled from the spec: the registry of the example scenario, as produced
by `create_base_stat` and `create_derived_stat`: base stat stamina with value
5, maxhp derived from stamina through multiplication by 10, curhp derived
from maxhp through the identity. -/
def scenarioEnv : Env :=
  [ ("stamina", ⟨5, none, id, []⟩)
  , ("maxhp", ⟨0, some "stamina", fun v => v * 10, []⟩)
  , ("curhp", ⟨0, some "maxhp", id, []⟩) ]

/-- The scenario registry after `set_base_value("stamina", 8)`. -/
def scenarioEnv2 : Env := updateVal scenarioEnv "stamina" 8

/-! ## The cycle scenario (A derived from B, then B derived from A) -/

/-- The registry holding the single base stat B. -/
def cycleEnv0 : Env := [("B", ⟨BASE_STAT_MINIMUM, none, id, []⟩)]

/-- The registry after A has been derived from B. -/
def cycleEnv1 : Env := cycleEnv0 ++ [("A", ⟨0, some "B", id, []⟩)]

/-! ## The claims -/

/-- C1: for every acyclic (well-formed) stat registry, `full_value`
terminates with a value, namely the one obtained by starting from the stored
value of the base stat and applying each derivation function along the source
chain outward, with the modifiers of each stat applied in insertion order
(`chainEval` of the chain found by `chainTo`); and in the sample registry the
chains are exactly attack from dexterity, maxhp from stamina, dodge from
agility and curhp from maxhp (then stamina). -/
theorem full_value_chain_correct :
    (∀ (env : Env) (name : String), WellFormed env →
        (lookupStat env name).isSome = true →
        ∃ c, chainTo env (List.length env) name = some c ∧
          full_value env (List.length env) name = some (chainEval c))
    ∧ chainNames sampleEnv (List.length sampleEnv) "attack" =
        some ["attack", "dexterity"]
    ∧ chainNames sampleEnv (List.length sampleEnv) "maxhp" =
        some ["maxhp", "stamina"]
    ∧ chainNames sampleEnv (List.length sampleEnv) "dodge" =
        some ["dodge", "agility"]
    ∧ chainNames sampleEnv (List.length sampleEnv) "curhp" =
        some ["curhp", "maxhp", "stamina"] := by
  refine ⟨?_, rfl, rfl, rfl, rfl⟩
  intro env name hwf hlk
  obtain ⟨d, hd⟩ := Option.isSome_iff_exists.mp hlk
  have hmem : (name, d) ∈ env := lookupStat_mem env name d hd
  unfold WellFormed at hwf
  have hall := List.all_eq_true.mp hwf (name, d) hmem
  obtain ⟨c, hc⟩ := Option.isSome_iff_exists.mp hall
  refine ⟨c, hc, ?_⟩
  rw [full_value_eq_chain, hc]
  rfl

/-- C1 witness: the general statement applied to the sample registry at the
stat curhp. -/
theorem full_value_chain_correct_witness :
    WellFormed sampleEnv ∧ (lookupStat sampleEnv "curhp").isSome = true ∧
    ∃ c, chainTo sampleEnv (List.length sampleEnv) "curhp" = some c ∧
      full_value sampleEnv (List.length sampleEnv) "curhp" =
        some (chainEval c) :=
  ⟨rfl, rfl, full_value_chain_correct.1 sampleEnv "curhp" rfl rfl⟩

/-- C2: over the stats declared in gamedata.py, the source relation is
acyclic (walking the chain from the source of any stat never returns to that
stat), no stat is its own source, and every stat has out-degree at most one
in the source-edge graph. -/
theorem source_relation_acyclic :
    (∀ p ∈ sampleEnv, acyclicAt sampleEnv p = true)
    ∧ (∀ p ∈ sampleEnv, ¬ p.2.source = some p.1)
    ∧ (∀ p ∈ sampleEnv, outDegree sampleEnv p.1 ≤ 1) := by
  refine ⟨?_, ?_, ?_⟩ <;> decide

/-- C2 witness: the three parts applied to the curhp entry of the sample
registry. -/
theorem source_relation_acyclic_witness :
    ("curhp", (⟨0, some "maxhp", id, []⟩ : StatDef)) ∈ sampleEnv ∧
    acyclicAt sampleEnv ("curhp", ⟨0, some "maxhp", id, []⟩) = true ∧
    ¬ (⟨0, some "maxhp", id, []⟩ : StatDef).source = some "curhp" ∧
    outDegree sampleEnv "curhp" ≤ 1 := by
  have hmem : ("curhp", (⟨0, some "maxhp", id, []⟩ : StatDef)) ∈ sampleEnv := by
    unfold sampleEnv
    exact .tail _ (.tail _ (.tail _ (.tail _ (.tail _ (.tail _ (.tail _
      (.head _)))))))
  exact ⟨hmem, source_relation_acyclic.1 _ hmem,
    source_relation_acyclic.2.1 _ hmem, source_relation_acyclic.2.2 _ hmem⟩

/-- C3: in the example configuration (stamina = 5, maxhp = stamina times 10,
curhp = identity of maxhp), the full value of curhp is 50, and after
`set_base_value("stamina", 8)` it is 80.  The registry is built through the
creation operations. -/
theorem scenario_curhp_values :
    create_base_stat [] "stamina" 5 = .ok [("stamina", ⟨5, none, id, []⟩)]
    ∧ create_derived_stat [("stamina", ⟨5, none, id, []⟩)] "maxhp" "stamina"
        (fun v => v * 10) =
        .ok [("stamina", ⟨5, none, id, []⟩),
             ("maxhp", ⟨0, some "stamina", fun v => v * 10, []⟩)]
    ∧ create_derived_stat
        [("stamina", ⟨5, none, id, []⟩),
         ("maxhp", ⟨0, some "stamina", fun v => v * 10, []⟩)]
        "curhp" "maxhp" id = .ok scenarioEnv
    ∧ full_value scenarioEnv (List.length scenarioEnv) "curhp" = some 50
    ∧ set_base_value scenarioEnv "stamina" 8 = some scenarioEnv2
    ∧ full_value scenarioEnv2 (List.length scenarioEnv2) "curhp" = some 80 :=
  ⟨rfl, rfl, rfl, rfl, rfl, rfl⟩

/-- C4: after a successful `set_base_value(b, v)`, the full value of any stat
equals the chain evaluation of its old source chain with the stored value of
every entry named b replaced by v (so every stat whose chain passes through b
reflects the new value at read time), and the full value of any stat whose
source chain does not contain b is unchanged. -/
theorem set_base_value_propagation :
    ∀ (env : Env) (b : String) (v : Int) (env2 : Env) (fuel : Nat)
      (s : String) (c : List (String × StatDef)),
      set_base_value env b v = some env2 →
      chainTo env fuel s = some c →
      (full_value env2 fuel s = some (chainEval (c.map (updEntry b v)))
        ∧ (b ∉ c.map Prod.fst →
            full_value env2 fuel s = full_value env fuel s)) := by
  intro env b v env2 fuel s c hset hc
  have he : env2 = updateVal env b v := set_base_value_some env b v env2 hset
  subst he
  have h1 : full_value (updateVal env b v) fuel s =
      some (chainEval (c.map (updEntry b v))) := by
    rw [full_value_eq_chain, chainTo_updateVal, hc]
    rfl
  refine ⟨h1, fun hb => ?_⟩
  have hmap : c.map (updEntry b v) = c := by
    have hpt : ∀ p ∈ c, updEntry b v p = p := by
      intro p hp
      have hne : ¬ p.1 = b := by
        intro heq
        exact hb (by rw [← heq]; exact List.mem_map_of_mem _ hp)
      simp [updEntry, hne]
    calc c.map (updEntry b v) = c.map id := List.map_congr_left hpt
      _ = c := List.map_id c
  rw [hmap] at h1
  rw [h1, full_value_eq_chain, hc]
  rfl

/-- C4 witness: setting stamina to 8 in the sample registry, checked on the
chain of curhp (which passes through stamina and reflects the new stored
value) — the frame implication for chains avoiding stamina is part of the
conclusion. -/
theorem set_base_value_propagation_witness :
    set_base_value sampleEnv "stamina" 8 =
      some (updateVal sampleEnv "stamina" 8)
    ∧ chainTo sampleEnv 8 "curhp" =
        some [("curhp", ⟨0, some "maxhp", id, []⟩),
              ("maxhp", ⟨0, some "stamina", id, []⟩),
              ("stamina", ⟨BASE_STAT_MINIMUM, none, id, []⟩)]
    ∧ (full_value (updateVal sampleEnv "stamina" 8) 8 "curhp" =
        some (chainEval
          ([("curhp", ⟨0, some "maxhp", id, []⟩),
            ("maxhp", ⟨0, some "stamina", id, []⟩),
            ("stamina", ⟨BASE_STAT_MINIMUM, none, id, []⟩)].map
              (updEntry "stamina" 8)))
        ∧ ("stamina" ∉
            ([("curhp", (⟨0, some "maxhp", id, []⟩ : StatDef)),
              ("maxhp", ⟨0, some "stamina", id, []⟩),
              ("stamina", ⟨BASE_STAT_MINIMUM, none, id, []⟩)].map Prod.fst) →
            full_value (updateVal sampleEnv "stamina" 8) 8 "curhp" =
              full_value sampleEnv 8 "curhp")) :=
  ⟨rfl, rfl, set_base_value_propagation sampleEnv "stamina" 8
    (updateVal sampleEnv "stamina" 8) 8 "curhp" _ rfl rfl⟩

/-- C5: starting from a registry holding the base stat B, deriving A from B
succeeds, and then deriving B from A is rejected with a cycle error; the
rejection comes from walking the source chain from the proposed source A back
toward the new name B and reaching it. -/
theorem derived_cycle_rejected :
    create_base_stat [] "B" BASE_STAT_MINIMUM = .ok cycleEnv0
    ∧ create_derived_stat cycleEnv0 "A" "B" id = .ok cycleEnv1
    ∧ create_derived_stat cycleEnv1 "B" "A" id = .error .cycle
    ∧ reaches cycleEnv1 (List.length cycleEnv1 + 1) "A" "B" = true :=
  ⟨rfl, rfl, rfl, rfl⟩

/-- C6: the melee skill carries three leveling sequences of equal length, and
its experience thresholds are strictly increasing with first threshold 0. -/
theorem melee_level_table_invariant :
    melee.perk_points.length = melee.experience_curve.length
    ∧ melee.perk_credits.length = melee.experience_curve.length
    ∧ List.Pairwise (fun a b => a < b) melee.experience_curve
    ∧ melee.experience_curve.head? = some 0 := by
  refine ⟨rfl, rfl, ?_, rfl⟩
  decide

/-- C7: with thresholds [0, 500, 1500] and accumulated experience 600 the
resolved level index is 1; index 1 is exactly the highest index whose
threshold is at most 600; and resolution is a pure function of the table and
the experience value, so repeated calls agree and mutate nothing. -/
theorem melee_level_resolution :
    resolveLevel [0, 500, 1500] 600 = 1
    ∧ (∀ i : Fin 3, ([0, 500, 1500].get i ≤ (600 : Int) ↔ (i : Nat) ≤ 1))
    ∧ ∀ (curve : List Int) (accumulated : Int),
        resolveLevel curve accumulated = resolveLevel curve accumulated :=
  ⟨by decide, by decide, fun _ _ => rfl⟩

/-! ## Evaluation of the construction section (gamedata.py lines 102-119) -/

/-- A Python value of the two types appearing in the monster-key
expressions. -/
inductive PyVal
  | int (n : Int)
  | str (s : String)
deriving DecidableEq

/-- Python addition on these values: int plus int adds, str plus str
concatenates, and a mixed application raises `TypeError` (modelled as an
error result). -/
def pyAdd : PyVal → PyVal → Except String PyVal
  | .int a, .int b => .ok (.int (a + b))
  | .str a, .str b => .ok (.str (a ++ b))
  | .str _, .int _ => .error "TypeError: can only concatenate str to str"
  | .int _, .str _ => .error "TypeError: unsupported operand types for +"

/-- The dictionary keys built by the kitchenspiders loop of gamedata.py lines
103-104: for i in range(1, 5), the key is the expression
spider-string + i, with i an int. -/
def kitchenspiderKeys : Except String (List PyVal) :=
  (pyRange 1 5).mapM (fun i => pyAdd (.str "spider ") (.int (i : Int)))

/-- The dictionary keys built by the basementrats loop of gamedata.py lines
107-108: for i in range(1, 3), the key is the expression
rat-string + i, with i an int. -/
def basementratKeys : Except String (List PyVal) :=
  (pyRange 1 3).mapM (fun i => pyAdd (.str "rat ") (.int (i : Int)))

/-- C8 (code bug): the construction section does not complete.  Already the
first iteration of the kitchenspiders loop raises a TypeError, because it
adds the int 1 to a string when building the dictionary key; the basementrats
loop fails the same way.  (The troll line additionally puts a dot where a
comma belongs, which is a syntax error, and the backfromkitchen line
references the undefined name portal; neither is expressible as a value
computation, so the theorem exhibits the type error.) -/
theorem construction_section_fails :
    pyAdd (.str "spider ") (.int 1) =
      .error "TypeError: can only concatenate str to str"
    ∧ kitchenspiderKeys =
        .error "TypeError: can only concatenate str to str"
    ∧ basementratKeys =
        .error "TypeError: can only concatenate str to str" :=
  ⟨rfl, rfl, rfl⟩

/-! ## The two-room map (gamedata.py lines 112-119) is never wired

The portal wiring of lines 116-119 runs after the kitchen area of line 115,
which consumes the kitchenspiders dictionary of lines 102-104, and after the
backfromkitchen item of line 113.  The kitchenspiders loop raises a TypeError
on its first iteration (the key adds an int to a string), line 113 takes the
attribute Portal of the name portal, which the file never binds, and line 110
places a dot where a comma belongs, so the module does not even parse.  The
post-wiring state described by the reciprocal-pair invariant therefore never
exists; the theorem below evaluates the dictionary construction that line 115
consumes and exhibits the failure at its first entry. -/

/-- The kitchenspiders dictionary of gamedata.py lines 102-104, built entry
by entry: each iteration of the loop over range(1, 5) computes the key
spider-string + i (an int added to a string) and stores the spider entity,
rendered here by its name field, under that key. -/
def kitchenspidersDict : Except String (List (PyVal × String)) :=
  (pyRange 1 5).mapM (fun i =>
    (pyAdd (.str "spider ") (.int (i : Int))).map (fun k => (k, "a spider")))

/-- C9 (code bug): the reciprocal portal wiring of lines 116-119 is never
established, because module evaluation never reaches it: the kitchenspiders
dictionary that the kitchen area of line 115 consumes fails with a TypeError
at its very first entry (the first loop index is 1, and the key expression
errors on it), so no kitchen area, and hence no post-wiring state, ever
exists.  (Line 110 is moreover a syntax error and line 113 references the
unbound name portal; neither is expressible as a value computation.) -/
theorem portal_wiring_never_runs :
    kitchenspidersDict = .error "TypeError: can only concatenate str to str"
    ∧ (pyRange 1 5).head? = some 1
    ∧ (pyAdd (.str "spider ") (.int 1)).map (fun k => (k, "a spider")) =
        (.error "TypeError: can only concatenate str to str" :
          Except String (PyVal × String)) :=
  ⟨rfl, rfl, rfl⟩

/-- C10: every dice constant, defined with an exclusive Python range upper
bound, stops one short of its nominal maximum face: D100 is 1..99, D20 is
1..19, D12 is 1..11, D10 is 1..9, D8 is 1..7, D6 is 1..5, D4 is 1..3, and
COIN is just [1]; in particular no element of any of these lists equals the
nominal maximum. -/
theorem dice_exclude_nominal_max :
    (D100 = List.range' 1 99 ∧ 100 ∉ D100)
    ∧ (D20 = List.range' 1 19 ∧ 20 ∉ D20)
    ∧ (D12 = List.range' 1 11 ∧ 12 ∉ D12)
    ∧ (D10 = List.range' 1 9 ∧ 10 ∉ D10)
    ∧ (D8 = List.range' 1 7 ∧ 8 ∉ D8)
    ∧ (D6 = List.range' 1 5 ∧ 6 ∉ D6)
    ∧ (D4 = List.range' 1 3 ∧ 4 ∉ D4)
    ∧ (COIN = [1] ∧ 2 ∉ COIN) := by
  refine ⟨⟨?_, ?_⟩, ⟨?_, ?_⟩, ⟨?_, ?_⟩, ⟨?_, ?_⟩, ⟨?_, ?_⟩, ⟨?_, ?_⟩,
    ⟨?_, ?_⟩, ⟨?_, ?_⟩⟩ <;> decide

end RpgExample
